import Mathlib

/-!
Verification of the error-classification component of permissionless.js
(EntryPoint v0.6 gas-estimation error taxonomy).

The repository ships the integration tests
(packages/permissionless-test/ep-0.6/errors/estimateUserOperationGasError.test.ts)
of the classifier; the classifier itself lives in the permissionless
package, outside the provided sources. The definitions below are therefore
modelled from the specification (sections 3, 4.1 and 7): a raw bundler
error payload, a closed taxonomy of failure kinds, and a pure classifier
that matches the payload message against an ordered signature table,
first match wins, with a terminal fallback kind and a decoding-failure
kind for malformed payloads.
-/

namespace Permissionless

/-- Modelled from the spec (section 3, RawBundlerError): an opaque
structured error payload returned by the bundler service, containing a
machine-readable code and message and optionally a revert reason string.
The classifier is not given in src, only its tests. -/
structure RawBundlerError where
  message : String
  code : Option Int := none
  details : Option String := none
deriving DecidableEq

/-- Modelled from the spec (section 6, input boundary): the wire-level
payload before decoding, in which the expected fields may be missing. -/
structure RawPayload where
  message : Option String
  code : Option Int := none
  details : Option String := none
deriving DecidableEq

/-- Modelled from the spec (sections 4.1 and 7): the closed set of failure
kinds, one per row of the trigger table, plus the terminal fallback kind
and the decoding-failure kind for malformed input. -/
inductive ErrorKind where
  | SenderAlreadyDeployedError
  | InitCodeRevertedError
  | SenderAddressMismatchError
  | SenderNotDeployedError
  | SmartAccountInsufficientFundsError
  | InvalidSmartAccountNonceError
  | PaymasterNotDeployedError
  | PaymasterDepositTooLowError
  | EstimateUserOperationGasError
  | DecodingFailureError
deriving DecidableEq

/-- Modelled from the spec (section 3, ClassifiedError): a tagged variant
selecting exactly one failure kind, carrying the original raw payload as
its cause. -/
structure ClassifiedError where
  kind : ErrorKind
  cause : RawBundlerError
deriving DecidableEq

/-- The known kinds a well-formed payload can classify to: the eight
specific rows of the trigger table plus the fallback. -/
def knownKinds : List ErrorKind :=
  [.SenderAlreadyDeployedError, .InitCodeRevertedError,
   .SenderAddressMismatchError, .SenderNotDeployedError,
   .SmartAccountInsufficientFundsError, .InvalidSmartAccountNonceError,
   .PaymasterNotDeployedError, .PaymasterDepositTooLowError,
   .EstimateUserOperationGasError]

/-- The pattern occurs as a contiguous run inside the character list. -/
def infixOfList (sig : List Char) : List Char → Bool
  | [] => sig.isEmpty
  | c :: t => sig.isPrefixOf (c :: t) || infixOfList sig t

/-- String-contains test used for signature matching: the signature occurs
as a contiguous substring of the message. -/
def strContains (msg sig : String) : Bool :=
  infixOfList sig.toList msg.toList

/-- Modelled from the spec (section 4.1): the ordered signature table,
pattern to kind, matched first-match-wins against the payload message.
The patterns are the EntryPoint AA revert-code signatures fixed by the
scenario sentences of section 8 (AA10, AA25, AA31) extended uniformly to
the remaining rows of the trigger table. -/
def signatures : List (String × ErrorKind) :=
  [("AA10", .SenderAlreadyDeployedError),
   ("AA13", .InitCodeRevertedError),
   ("AA14", .SenderAddressMismatchError),
   ("AA20", .SenderNotDeployedError),
   ("AA21", .SmartAccountInsufficientFundsError),
   ("AA25", .InvalidSmartAccountNonceError),
   ("AA30", .PaymasterNotDeployedError),
   ("AA31", .PaymasterDepositTooLowError)]

/-- Modelled from the spec (section 4.1, contract classify): match the
message of the raw payload against the ordered signature table, first
match wins; an unmatched payload falls through to the fallback kind. The
input payload is always kept as the cause. -/
def classify (raw : RawBundlerError) : ClassifiedError :=
  match signatures.find? (fun s => strContains raw.message s.1) with
  | some s => ⟨s.2, raw⟩
  | none => ⟨.EstimateUserOperationGasError, raw⟩

/-- Modelled from the spec (section 6): decoding the wire-level payload
into a well-formed raw error, which fails when the message field is
missing. -/
def decodePayload (p : RawPayload) : Option RawBundlerError :=
  match p.message with
  | some m => some ⟨m, p.code, p.details⟩
  | none => none

/-- Modelled from the spec (section 4.1, failure semantics): classifying a
wire-level payload surfaces the generic decoding-failure kind when the
payload is structurally invalid, and otherwise the kind of the decoded
payload. -/
def classifyPayload (p : RawPayload) : ErrorKind :=
  match decodePayload p with
  | some raw => (classify raw).kind
  | none => .DecodingFailureError

/-- Modelled from the spec (section 3, UserOperation): an immutable value
object describing a pending account-abstraction transaction request. The
init code and the paymaster-and-data fields are always present at the
interface; supplying none of either is the empty byte string 0x, not an
absent field, exactly as the tests set userOperation.initCode = 0x. -/
structure UserOperation where
  sender : String
  nonce : Nat
  callData : String
  callGasLimit : Nat
  verificationGasLimit : Nat
  preVerificationGas : Nat
  maxFeePerGas : Nat
  maxPriorityFeePerGas : Nat
  initCode : String := "0x"
  paymasterAndData : String := "0x"
deriving DecidableEq

/-- Modelled from the spec (section 4.1, trigger-condition table): the
facts about the chain state that decide which trigger condition a
simulated user operation hits, relative to the operation under test. -/
structure ChainEnv where
  senderDeployed : Bool
  initCodeReverts : Bool
  addressMatches : Bool
  prefundPaid : Bool
  nonceValid : Bool
  paymasterDeployed : Bool
  paymasterDepositOk : Bool
deriving DecidableEq

/-- Modelled from the spec (section 4.1, trigger-condition table): the
bundler simulation behind gas estimation, checking the trigger conditions
in table order and rejecting with the corresponding AA revert message,
or accepting when no condition fires. The simulation itself is external
to the repository; only its error taxonomy is specified. -/
def simulateUserOperation (env : ChainEnv) (uo : UserOperation) :
    Option RawBundlerError :=
  if uo.initCode ≠ "0x" ∧ env.senderDeployed then
    some ⟨"AA10 sender already constructed", none, none⟩
  else if uo.initCode ≠ "0x" ∧ env.initCodeReverts then
    some ⟨"AA13 initCode failed or OOG", none, none⟩
  else if uo.initCode ≠ "0x" ∧ ¬env.addressMatches then
    some ⟨"AA14 initCode must return sender", none, none⟩
  else if uo.initCode = "0x" ∧ ¬env.senderDeployed then
    some ⟨"AA20 account not deployed", none, none⟩
  else if ¬env.prefundPaid then
    some ⟨"AA21 did not pay prefund", none, none⟩
  else if ¬env.nonceValid then
    some ⟨"AA25 invalid account nonce", none, none⟩
  else if uo.paymasterAndData ≠ "0x" ∧ ¬env.paymasterDeployed then
    some ⟨"AA30 paymaster not deployed", none, none⟩
  else if uo.paymasterAndData ≠ "0x" ∧ ¬env.paymasterDepositOk then
    some ⟨"AA31 paymaster deposit too low", none, none⟩
  else
    none

/-- Modelled from the spec (section 6, output boundary) and the tests: the
outer estimation-error wrapper the caller actually catches; the specific
classified error sits one level down, in its cause field, which is what
the tests rethrow before checking the specific kind. -/
structure EstimationError where
  cause : ClassifiedError
deriving DecidableEq

/-- Modelled from the spec (sections 2 and 7): gas estimation either
succeeds or rejects with the outer wrapper holding the classification of
the raw bundler failure. -/
def estimateUserOperationGas (env : ChainEnv) (uo : UserOperation) :
    Except EstimationError Unit :=
  match simulateUserOperation env uo with
  | some raw => .error ⟨classify raw⟩
  | none => .ok ()

/-- A concrete user operation for witnesses: no init code, no paymaster. -/
def sampleUserOp : UserOperation :=
  { sender := "0x1111111111111111111111111111111111111111"
    nonce := 0
    callData := "0x"
    callGasLimit := 100000
    verificationGasLimit := 100000
    preVerificationGas := 21000
    maxFeePerGas := 1
    maxPriorityFeePerGas := 1 }

/-- A concrete chain state for witnesses: everything healthy except that
the sender account is not yet deployed. -/
def sampleEnvUndeployed : ChainEnv :=
  { senderDeployed := false
    initCodeReverts := false
    addressMatches := true
    prefundPaid := true
    nonceValid := true
    paymasterDeployed := true
    paymasterDepositOk := true }

/-- If the predicate holds at index i of a list and fails at every earlier
index, then the first hit of the list search is the element at i. -/
lemma find_of_first {α : Type} (p : α → Bool) (l : List α) :
    ∀ (i : Nat) (h : i < l.length), p (l.get ⟨i, h⟩) = true →
      (∀ j (hj : j < l.length), j < i → p (l.get ⟨j, hj⟩) = false) →
      l.find? p = some (l.get ⟨i, h⟩) := by
  induction l with
  | nil => intro i h; exact absurd h (Nat.not_lt_zero i)
  | cons a t ih =>
    intro i h hp hfirst
    cases i with
    | zero =>
      simp only [List.get] at hp
      simp [List.find?_cons_of_pos, hp]
    | succ k =>
      have ha : p a = false := hfirst 0 (Nat.succ_pos _) (Nat.succ_pos k)
      have hk : k < t.length := Nat.lt_of_succ_lt_succ h
      have ht : t.find? p = some (t.get ⟨k, hk⟩) := by
        apply ih k hk hp
        intro j hj hjk
        exact hfirst (j + 1) (Nat.succ_lt_succ hj) (Nat.succ_lt_succ hjk)
      rw [List.find?_cons_of_neg _ (by simp [ha]), ht]
      rfl

/-- Unfolding classify at a successful signature lookup. -/
lemma classify_of_find (raw : RawBundlerError) {s : String × ErrorKind}
    (h : signatures.find? (fun q => strContains raw.message q.1) = some s) :
    classify raw = ⟨s.2, raw⟩ := by
  unfold classify
  rw [h]

/-- Unfolding classify at a failed signature lookup. -/
lemma classify_of_none (raw : RawBundlerError)
    (h : signatures.find? (fun q => strContains raw.message q.1) = none) :
    classify raw = ⟨.EstimateUserOperationGasError, raw⟩ := by
  unfold classify
  rw [h]

/-- The classifier always keeps the input payload as the cause. -/
lemma classify_cause (raw : RawBundlerError) : (classify raw).cause = raw := by
  rcases hf : signatures.find? (fun q => strContains raw.message q.1) with _ | s
  · rw [classify_of_none raw hf]
  · rw [classify_of_find raw hf]

/-- The classifier always lands in the closed set of known kinds. -/
lemma classify_kind_known (raw : RawBundlerError) :
    (classify raw).kind ∈ knownKinds := by
  rcases hf : signatures.find? (fun q => strContains raw.message q.1) with _ | s
  · rw [classify_of_none raw hf]
    show ErrorKind.EstimateUserOperationGasError ∈ knownKinds
    decide
  · rw [classify_of_find raw hf]
    exact (by decide : ∀ q ∈ signatures, q.2 ∈ knownKinds) s
      (List.mem_of_find?_eq_some hf)

end Permissionless

namespace Permissionless

/-- Claim C1: for every raw bundler error payload, classify returns
exactly one tagged variant from the closed set of known failure kinds,
the eight specific kinds plus the EstimateUserOperationGasError fallback;
it never swallows the input (the cause is the input payload) and, being a
function into one tagged value, never produces more than one result. -/
theorem classify_closed_taxonomy (raw : RawBundlerError) :
    (classify raw).kind ∈ knownKinds ∧ (classify raw).cause = raw :=
  ⟨classify_kind_known raw, classify_cause raw⟩

/-- Claim C2: for every raw payload whose message contains exactly the
known signature at index i of the table, classify returns the kind paired
with that signature, and the cause of the result is the input payload. -/
theorem classify_known_signature (raw : RawBundlerError) (i : Nat)
    (hi : i < signatures.length)
    (hmatch : strContains raw.message (signatures.get ⟨i, hi⟩).1 = true)
    (hother : ∀ j (hj : j < signatures.length), j ≠ i →
      strContains raw.message (signatures.get ⟨j, hj⟩).1 = false) :
    classify raw = ⟨(signatures.get ⟨i, hi⟩).2, raw⟩ := by
  apply classify_of_find
  apply find_of_first (fun q => strContains raw.message q.1) signatures i hi hmatch
  intro j hj hji
  exact hother j hj (Nat.ne_of_lt hji)

theorem classify_known_signature_witness :
    classify ⟨"AA30 paymaster not deployed", none, none⟩ =
      ⟨.PaymasterNotDeployedError, ⟨"AA30 paymaster not deployed", none, none⟩⟩ :=
  classify_known_signature ⟨"AA30 paymaster not deployed", none, none⟩ 6
    (by decide) (by decide) (by decide)

/-- Claim C3: for every raw payload matching no known signature, classify
returns the fallback kind EstimateUserOperationGasError with the input
payload kept verbatim as the cause. -/
theorem classify_unmatched_fallback (raw : RawBundlerError)
    (h : ∀ s ∈ signatures, strContains raw.message s.1 = false) :
    classify raw = ⟨.EstimateUserOperationGasError, raw⟩ := by
  apply classify_of_none
  rw [List.find?_eq_none]
  intro s hs
  simp [h s hs]

theorem classify_unmatched_fallback_witness :
    classify ⟨"internal server error", none, none⟩ =
      ⟨.EstimateUserOperationGasError, ⟨"internal server error", none, none⟩⟩ :=
  classify_unmatched_fallback ⟨"internal server error", none, none⟩ (by decide)

/-- Claim C4: signature matching is first-match-wins against the ordered
table: for every raw payload matching the signature at index i and also a
later signature at index j, with no match before i, classify returns the
kind of the earlier signature i. -/
theorem classify_first_match_wins (raw : RawBundlerError) (i j : Nat)
    (hi : i < signatures.length) (hj : j < signatures.length) (hij : i < j)
    (hmi : strContains raw.message (signatures.get ⟨i, hi⟩).1 = true)
    (hmj : strContains raw.message (signatures.get ⟨j, hj⟩).1 = true)
    (hfirst : ∀ k (hk : k < signatures.length), k < i →
      strContains raw.message (signatures.get ⟨k, hk⟩).1 = false) :
    classify raw = ⟨(signatures.get ⟨i, hi⟩).2, raw⟩ :=
  classify_of_find raw
    (find_of_first (fun q => strContains raw.message q.1) signatures i hi hmi hfirst)

theorem classify_first_match_wins_witness :
    classify ⟨"AA20 account not deployed after AA21 did not pay prefund",
        none, none⟩ =
      ⟨.SenderNotDeployedError,
       ⟨"AA20 account not deployed after AA21 did not pay prefund",
        none, none⟩⟩ :=
  classify_first_match_wins
    ⟨"AA20 account not deployed after AA21 did not pay prefund", none, none⟩
    3 4 (by decide) (by decide) (by decide) (by decide) (by decide) (by decide)

/-- Claim C5: classification of a wire-level payload is total: a payload
missing its message field yields the generic decoding-failure kind rather
than crashing, and a well-formed payload classifies exactly as its decoded
raw error does, which always lands in the closed set of known kinds. -/
theorem classifyPayload_total (p : RawPayload) :
    (p.message = none → classifyPayload p = .DecodingFailureError) ∧
    (∀ m, p.message = some m →
      classifyPayload p = (classify ⟨m, p.code, p.details⟩).kind ∧
      (classify ⟨m, p.code, p.details⟩).kind ∈ knownKinds) := by
  constructor
  · intro h
    unfold classifyPayload decodePayload
    rw [h]
  · intro m h
    refine ⟨?_, classify_kind_known ⟨m, p.code, p.details⟩⟩
    unfold classifyPayload decodePayload
    rw [h]

theorem classifyPayload_total_witness :
    classifyPayload ⟨none, none, none⟩ = .DecodingFailureError ∧
    classifyPayload ⟨some "execution aborted", none, none⟩ =
      (classify ⟨"execution aborted", none, none⟩).kind :=
  ⟨(classifyPayload_total ⟨none, none, none⟩).1 rfl,
   ((classifyPayload_total ⟨some "execution aborted", none, none⟩).2
      "execution aborted" rfl).1⟩

/-- Claim C6: classify is a deterministic pure function of the raw
payload: two calls on equal inputs return the same classified value, in
particular values of the same kind; no state flows between calls. -/
theorem classify_deterministic (a b : RawBundlerError) (h : a = b) :
    (classify a).kind = (classify b).kind ∧ classify a = classify b := by
  subst h
  exact ⟨rfl, rfl⟩

theorem classify_deterministic_witness :
    (classify ⟨"AA13 initCode failed", none, none⟩).kind =
      (classify ⟨"AA13 initCode failed", none, none⟩).kind ∧
    classify ⟨"AA13 initCode failed", none, none⟩ =
      classify ⟨"AA13 initCode failed", none, none⟩ :=
  classify_deterministic ⟨"AA13 initCode failed", none, none⟩
    ⟨"AA13 initCode failed", none, none⟩ rfl

/-- Claim C7: a raw payload whose message is AA10 sender already
constructed classifies, for any code and details fields, as the
SenderAlreadyDeployedError kind. -/
theorem classify_scenario_AA10 (code : Option Int) (details : Option String) :
    (classify ⟨"AA10 sender already constructed", code, details⟩).kind =
      .SenderAlreadyDeployedError := rfl

/-- Claim C8: a raw payload whose message is AA25 invalid account nonce
classifies, for any code and details fields, as the
InvalidSmartAccountNonceError kind. -/
theorem classify_scenario_AA25 (code : Option Int) (details : Option String) :
    (classify ⟨"AA25 invalid account nonce", code, details⟩).kind =
      .InvalidSmartAccountNonceError := rfl

/-- Claim C9: for every user operation supplying no init code, the empty
byte string 0x in its always-present initCode field, whose sender has no
deployed code, gas estimation fails and the failure classifies as the
SenderNotDeployedError kind, observed in the cause of the caught wrapper. -/
theorem estimate_sender_not_deployed (env : ChainEnv) (uo : UserOperation)
    (hinit : uo.initCode = "0x") (hcode : env.senderDeployed = false) :
    ∃ w : EstimationError, estimateUserOperationGas env uo = .error w ∧
      w.cause.kind = .SenderNotDeployedError := by
  have hsim : simulateUserOperation env uo =
      some ⟨"AA20 account not deployed", none, none⟩ := by
    unfold simulateUserOperation
    rw [hinit, hcode]
    simp
  refine ⟨⟨classify ⟨"AA20 account not deployed", none, none⟩⟩, ?_, ?_⟩
  · unfold estimateUserOperationGas
    rw [hsim]
  · decide

theorem estimate_sender_not_deployed_witness :
    ∃ w : EstimationError,
      estimateUserOperationGas sampleEnvUndeployed sampleUserOp = .error w ∧
      w.cause.kind = .SenderNotDeployedError :=
  estimate_sender_not_deployed sampleEnvUndeployed sampleUserOp rfl rfl

/-- Claim C10: whenever gas estimation rejects, the value the caller
catches is the outer estimation-error wrapper, and the specific classified
error is exactly the cause field of that wrapper, one unwrapping level
below the thrown value. -/
theorem estimate_error_wraps_classified (env : ChainEnv) (uo : UserOperation)
    (w : EstimationError) (h : estimateUserOperationGas env uo = .error w) :
    ∃ raw, simulateUserOperation env uo = some raw ∧ w.cause = classify raw := by
  unfold estimateUserOperationGas at h
  rcases hsim : simulateUserOperation env uo with _ | raw
  · rw [hsim] at h
    exact Except.noConfusion h
  · rw [hsim] at h
    have hw : Except.error ⟨classify raw⟩ = (Except.error w :
        Except EstimationError Unit) := h
    injection hw with hw2
    subst hw2
    exact ⟨raw, rfl, rfl⟩

theorem estimate_error_wraps_classified_witness :
    ∃ raw,
      simulateUserOperation sampleEnvUndeployed sampleUserOp = some raw ∧
      (EstimationError.mk
          (classify ⟨"AA20 account not deployed", none, none⟩)).cause =
        classify raw :=
  estimate_error_wraps_classified sampleEnvUndeployed sampleUserOp
    ⟨classify ⟨"AA20 account not deployed", none, none⟩⟩ rfl

end Permissionless
